import Mathlib

/-!
Shallow embedding of `water_watcher.py` (class `WaterDetector` and its
collaborators) for verification of the monitoring loop.

Modelling conventions:
* Timestamps are integers (seconds); `datetime.now()` within one loop
  iteration is modelled as a single `Time` value carrying the absolute
  timestamp together with its wall-clock hour and minute.
* Hardware reads `GPIO.input` are environment inputs: each read is
  `Option Bool`, `none` meaning the read raises an exception.
* Writes to the sensor power pin `GPIO.output(power_pin, ...)` are recorded
  in order in a `pinWrites` trace (`true` = HIGH, `false` = LOW).
* `LevitonController.set_plug("ON")` is modelled by an environment flag
  `plugOk` saying whether the HTTP call succeeds; on success the remote
  plug state becomes `true` (ON); on failure the call raises.
* `TelegramNotifier.send_message` never raises and returns a Bool; the
  environment supplies that Bool (`notifySent`).  `Database.log_event`
  swallows all exceptions, so persisting never raises; the constructor
  guarantees a database is always present (`if not self.db: self.db =
  Database()`), so every run of the persist branch records an event.
* A `KeyboardInterrupt` can arrive during `time.sleep` (the loop's only
  suspension point); the environment flag `interrupt` marks it.
* The `debug` flag only changes logging verbosity and is omitted.
* The `LevitonController` is assumed present (as in `__main__`); the
  `emoji` local variable of `monitor` is tracked by `emojiBound`: the
  trigger branch at 07:00 reads `emoji` (line 270) which is only assigned
  in the notification branch (line 304), so referencing it before that
  branch has ever run raises a `NameError`.
-/

namespace WaterWatcher

/-- Wall-clock instant: absolute timestamp in seconds plus the hour and
minute fields that `datetime.now()` exposes. -/
structure Time where
  abs : Int
  hour : Nat
  minute : Nat
deriving DecidableEq

/-- Environment inputs consumed by one iteration of `monitor`'s loop. -/
structure IterInput where
  reads : List (Option Bool)
  now : Time
  plugOk : Bool
  notifySent : Bool
  interrupt : Bool
deriving DecidableEq

/-- Run configuration: whether a Telegram notifier was passed to
`WaterDetector.__init__`, and the notification cooldown in seconds
(`timedelta(hours=6)` = 21600 in the source). -/
structure Config where
  telegramConfigured : Bool
  cooldown : Int
deriving DecidableEq

/-- The mutable fields of `WaterDetector` used by `monitor`, plus the
binding status of `monitor`'s local variable `emoji`. -/
structure LoopState where
  last_state : Bool
  last_reading_time : Option Int
  last_notification_time : Option Int
  emojiBound : Bool
deriving DecidableEq

/-- Field values set in `WaterDetector.__init__`: `last_state = False`,
`last_reading_time = None`, `last_notification_time = None`; `emoji` is
unbound when `monitor` starts. -/
def initState : LoopState :=
  { last_state := false
    last_reading_time := none
    last_notification_time := none
    emojiBound := false }

/-- The read loop of `check_water`: five `GPIO.input` calls.  The first
failing read aborts with the exception; otherwise all readings are
collected in order. -/
def takeReadings : List (Option Bool) → Except Unit (List Bool)
  | [] => Except.ok []
  | none :: _ => Except.error ()
  | some b :: rest => (takeReadings rest).map (fun l => b :: l)

/-- The vote `sum(readings) > len(readings) / 2` of `check_water`
(line 235).  Python `/` is exact here (values at most 5), so the strict
majority test is the integer comparison `2 * count > length`; the lemma
`checkWaterResult_eq_exact` below ties this to the literal
rational-division reading of the source expression. -/
def checkWaterResult (raw : List Bool) : Bool :=
  decide (2 * raw.count true > raw.length)

/-- `WaterDetector.check_water` (lines 220-244): energize the power pin
(HIGH), take five readings, de-energize (LOW), return the majority vote;
on any failure the `except` block drives the pin LOW and re-raises.
Returns the power-pin write trace and the outcome. -/
def check_water (reads : List (Option Bool)) : List Bool × Except Unit Bool :=
  match takeReadings reads with
  | Except.ok rs => ([true, false], Except.ok (checkWaterResult rs))
  | Except.error _ => ([true, false], Except.error ())

/-- `WaterDetector.should_notify` (lines 214-218): `True` when no
notification has ever been sent, else the strict comparison
`now - last_notification_time > cooldown`. -/
def should_notify (lastNotif : Option Int) (now : Int) (cooldown : Int) : Bool :=
  match lastNotif with
  | none => true
  | some t => decide (now - t > cooldown)

/-- The actuation trigger condition of `monitor` (line 260):
`current_time.hour == 7 and current_time.minute == 0 and current_state`. -/
def shouldActuate (t : Time) (current : Bool) : Bool :=
  decide (t.hour = 7) && decide (t.minute = 0) && current

/-- Disposition of one loop iteration: continue looping, terminate with a
propagating exception, or terminate via `KeyboardInterrupt`. -/
inductive StepDisp where
  | cont
  | fatal
  | interrupted
deriving DecidableEq

/-- Lines 277-284 of `monitor`: on the very first reading, set
`last_reading_time` and `last_state` immediately and report a change;
afterwards a change is `current_state != self.last_state`. -/
def firstReading (s : LoopState) (t : Time) (current : Bool) : LoopState × Bool :=
  match s.last_reading_time with
  | none => ({ s with last_reading_time := some t.abs, last_state := current }, true)
  | some _ => (s, decide (current ≠ s.last_state))

/-- Lines 286-316 of `monitor`: the persist/notify branch.  When it runs,
one event is persisted; if a Telegram notifier is configured the local
`emoji` is bound, a message is sent (result ignored) and
`last_notification_time` is set; finally `last_state` and
`last_reading_time` are committed inside the branch. -/
def commitPhase (cfg : Config) (s1 : LoopState) (t : Time) (current : Bool)
    (state_changed : Bool) : LoopState × List Time :=
  if state_changed || should_notify s1.last_notification_time t.abs cfg.cooldown then
    ({ (if cfg.telegramConfigured then
          { s1 with last_notification_time := some t.abs, emojiBound := true }
        else s1) with
        last_state := current, last_reading_time := some t.abs }, [t])
  else (s1, ([] : List Time))

/-- Lines 277-318 of `monitor`: first-reading initialization, change
detection, the persist/notify branch with its state commit, and the sleep
(where an interrupt may arrive).  Returns the disposition, the updated
state, and the timestamps of persisted events. -/
def evalPhase (cfg : Config) (s : LoopState) (t : Time) (current : Bool)
    (interrupt : Bool) : StepDisp × LoopState × List Time :=
  ((if interrupt then StepDisp.interrupted else StepDisp.cont),
   (commitPhase cfg (firstReading s t current).1 t current (firstReading s t current).2).1,
   (commitPhase cfg (firstReading s t current).1 t current (firstReading s t current).2).2)

/-- Observable outcome of one iteration (or of a whole run): disposition,
final detector state, remote plug state, `set_plug("ON")` call times,
persisted event times, and the power-pin write trace. -/
structure StepOut where
  disp : StepDisp
  state : LoopState
  plugOn : Bool
  plugCalls : List Time
  events : List Time
  pinWrites : List Bool
deriving DecidableEq

/-- One iteration of the `while True` loop of `monitor` (lines 254-318):
sample via `check_water` (a failure propagates), run the 07:00 trigger
branch (an actuator failure or the `emoji` `NameError` propagates; the
trigger branch ignores `send_message`'s result and does not touch
`last_notification_time`), then the evaluation/persist/commit phase and
the sleep. -/
def monitorStep (cfg : Config) (s : LoopState) (plugOn : Bool)
    (inp : IterInput) : StepOut :=
  match (check_water inp.reads).2 with
  | Except.error _ =>
      { disp := StepDisp.fatal, state := s, plugOn := plugOn,
        plugCalls := [], events := [], pinWrites := (check_water inp.reads).1 }
  | Except.ok current =>
      if shouldActuate inp.now current then
        if inp.plugOk then
          if cfg.telegramConfigured && !s.emojiBound then
            { disp := StepDisp.fatal, state := s, plugOn := true,
              plugCalls := [inp.now], events := [],
              pinWrites := (check_water inp.reads).1 }
          else
            { disp := (evalPhase cfg s inp.now current inp.interrupt).1,
              state := (evalPhase cfg s inp.now current inp.interrupt).2.1,
              plugOn := true, plugCalls := [inp.now],
              events := (evalPhase cfg s inp.now current inp.interrupt).2.2,
              pinWrites := (check_water inp.reads).1 }
        else
          { disp := StepDisp.fatal, state := s, plugOn := plugOn,
            plugCalls := [inp.now], events := [],
            pinWrites := (check_water inp.reads).1 }
      else
        { disp := (evalPhase cfg s inp.now current inp.interrupt).1,
          state := (evalPhase cfg s inp.now current inp.interrupt).2.1,
          plugOn := plugOn, plugCalls := [],
          events := (evalPhase cfg s inp.now current inp.interrupt).2.2,
          pinWrites := (check_water inp.reads).1 }

/-- How a (finite prefix of a) run of `monitor` ended: still looping,
returned normally after `KeyboardInterrupt`, or re-raised an exception. -/
inductive RunResult where
  | running
  | interrupted
  | failed
deriving DecidableEq

/-- Accumulated outcome of a run of `monitor` over a finite input trace. -/
structure RunOut where
  result : RunResult
  state : LoopState
  plugOn : Bool
  plugCalls : List Time
  events : List Time
  pinWrites : List Bool
deriving DecidableEq

/-- `WaterDetector.monitor` over a finite trace of per-iteration inputs.
On a fatal exception or an interrupt the `finally` block (line 330) writes
the power pin LOW one final time; no command is ever sent to the remote
plug on shutdown.  An exhausted input trace leaves the loop `running`. -/
def monitorRun (cfg : Config) : LoopState → Bool → List IterInput → RunOut
  | s, plugOn, [] =>
      { result := RunResult.running, state := s, plugOn := plugOn,
        plugCalls := [], events := [], pinWrites := [] }
  | s, plugOn, inp :: rest =>
      match (monitorStep cfg s plugOn inp).disp with
      | StepDisp.cont =>
          { result := (monitorRun cfg (monitorStep cfg s plugOn inp).state
              (monitorStep cfg s plugOn inp).plugOn rest).result,
            state := (monitorRun cfg (monitorStep cfg s plugOn inp).state
              (monitorStep cfg s plugOn inp).plugOn rest).state,
            plugOn := (monitorRun cfg (monitorStep cfg s plugOn inp).state
              (monitorStep cfg s plugOn inp).plugOn rest).plugOn,
            plugCalls := (monitorStep cfg s plugOn inp).plugCalls ++
              (monitorRun cfg (monitorStep cfg s plugOn inp).state
                (monitorStep cfg s plugOn inp).plugOn rest).plugCalls,
            events := (monitorStep cfg s plugOn inp).events ++
              (monitorRun cfg (monitorStep cfg s plugOn inp).state
                (monitorStep cfg s plugOn inp).plugOn rest).events,
            pinWrites := (monitorStep cfg s plugOn inp).pinWrites ++
              (monitorRun cfg (monitorStep cfg s plugOn inp).state
                (monitorStep cfg s plugOn inp).plugOn rest).pinWrites }
      | StepDisp.fatal =>
          { result := RunResult.failed,
            state := (monitorStep cfg s plugOn inp).state,
            plugOn := (monitorStep cfg s plugOn inp).plugOn,
            plugCalls := (monitorStep cfg s plugOn inp).plugCalls,
            events := (monitorStep cfg s plugOn inp).events,
            pinWrites := (monitorStep cfg s plugOn inp).pinWrites ++ [false] }
      | StepDisp.interrupted =>
          { result := RunResult.interrupted,
            state := (monitorStep cfg s plugOn inp).state,
            plugOn := (monitorStep cfg s plugOn inp).plugOn,
            plugCalls := (monitorStep cfg s plugOn inp).plugCalls,
            events := (monitorStep cfg s plugOn inp).events,
            pinWrites := (monitorStep cfg s plugOn inp).pinWrites ++ [false] }

/-- Concrete configuration without a Telegram notifier, cooldown 6 h. -/
def cfgNoTel : Config := { telegramConfigured := false, cooldown := 21600 }

/-- Concrete configuration with a Telegram notifier, cooldown 6 h. -/
def cfgTel : Config := { telegramConfigured := true, cooldown := 21600 }

/-- Five successful wet readings. -/
def wet5 : List (Option Bool) := [some true, some true, some true, some true, some true]

/-- Five successful dry readings. -/
def dry5 : List (Option Bool) := [some false, some false, some false, some false, some false]

/-- A read sequence whose second read raises. -/
def failReads : List (Option Bool) := [some true, none, some true, some true, some true]

/-- The integer majority test agrees with the literal reading of the
source expression `sum(readings) > len(readings) / 2` under exact
(rational) division. -/
theorem checkWaterResult_eq_exact (raw : List Bool) :
    checkWaterResult raw = true ↔ (raw.count true : ℚ) > (raw.length : ℚ) / 2 := by
  unfold checkWaterResult
  rw [decide_eq_true_iff]
  rw [gt_iff_lt, gt_iff_lt, div_lt_iff₀ (by norm_num : (0 : ℚ) < 2)]
  constructor
  · intro h
    have h2 : raw.length < List.count true raw * 2 := by omega
    exact_mod_cast h2
  · intro h
    have h2 : (raw.length : ℚ) < 2 * List.count true raw := by linarith
    have h3 : raw.length < 2 * List.count true raw := by exact_mod_cast h2
    omega

/-- Reading a list of raw samples that all succeed collects exactly those
samples. -/
theorem takeReadings_map_some (rs : List Bool) :
    takeReadings (rs.map some) = Except.ok rs := by
  induction rs with
  | nil => rfl
  | cons b rest ih => simp [takeReadings, ih, Except.map]

/-- The first-reading phase never touches `last_notification_time`. -/
theorem firstReading_lnt (s : LoopState) (t : Time) (current : Bool) :
    (firstReading s t current).1.last_notification_time =
      s.last_notification_time := by
  cases hs : s.last_reading_time <;> simp [firstReading, hs]

/-- The commit phase never touches `last_notification_time` when no
Telegram notifier is configured. -/
theorem commitPhase_lnt_no_telegram (cfg : Config) (s1 : LoopState) (t : Time)
    (current : Bool) (sc : Bool) (h : cfg.telegramConfigured = false) :
    (commitPhase cfg s1 t current sc).1.last_notification_time =
      s1.last_notification_time := by
  unfold commitPhase
  split <;> simp [h]

/-- When `last_notification_time` is unset, the persist/notify branch
always runs and records exactly one event. -/
theorem commitPhase_events_lnt_none (cfg : Config) (s1 : LoopState) (t : Time)
    (current : Bool) (sc : Bool) (h : s1.last_notification_time = none) :
    (commitPhase cfg s1 t current sc).2 = [t] := by
  unfold commitPhase
  simp [should_notify, h]

/-- The persist/notify branch records an event exactly when its guard
`state_changed or should_notify()` holds. -/
theorem commitPhase_events_ne_nil_iff (cfg : Config) (s1 : LoopState)
    (t : Time) (current : Bool) (sc : Bool) :
    (commitPhase cfg s1 t current sc).2 ≠ [] ↔
      (sc || should_notify s1.last_notification_time t.abs cfg.cooldown) =
        true := by
  unfold commitPhase
  split
  next hc => simp [hc]
  next hc => simp [hc]

/-- When a Telegram notifier is configured and the persist/notify branch
records an event, `last_notification_time` is committed to the current
timestamp. -/
theorem commitPhase_lnt_of_events (cfg : Config) (s1 : LoopState) (t : Time)
    (current : Bool) (sc : Bool) (htel : cfg.telegramConfigured = true)
    (h : (commitPhase cfg s1 t current sc).2 ≠ []) :
    (commitPhase cfg s1 t current sc).1.last_notification_time = some t.abs := by
  unfold commitPhase at h ⊢
  split at h
  · split <;> simp_all
  · simp at h

/-- The evaluation phase never touches `last_notification_time` when no
Telegram notifier is configured. -/
theorem evalPhase_lnt_no_telegram (cfg : Config) (s : LoopState) (t : Time)
    (current : Bool) (i : Bool) (h : cfg.telegramConfigured = false) :
    (evalPhase cfg s t current i).2.1.last_notification_time =
      s.last_notification_time := by
  show (commitPhase cfg (firstReading s t current).1 t current
      (firstReading s t current).2).1.last_notification_time =
    s.last_notification_time
  rw [commitPhase_lnt_no_telegram _ _ _ _ _ h, firstReading_lnt]

/-- When `last_notification_time` is unset, the evaluation phase records
exactly one event. -/
theorem evalPhase_events_lnt_none (cfg : Config) (s : LoopState) (t : Time)
    (current : Bool) (i : Bool) (h : s.last_notification_time = none) :
    (evalPhase cfg s t current i).2.2 = [t] := by
  show (commitPhase cfg (firstReading s t current).1 t current
      (firstReading s t current).2).2 = [t]
  exact commitPhase_events_lnt_none _ _ _ _ _ ((firstReading_lnt s t current).trans h)

/-- When a Telegram notifier is configured and the evaluation phase
records an event, `last_notification_time` is committed to the current
timestamp. -/
theorem evalPhase_lnt_of_events (cfg : Config) (s : LoopState) (t : Time)
    (current : Bool) (i : Bool) (htel : cfg.telegramConfigured = true)
    (h : (evalPhase cfg s t current i).2.2 ≠ []) :
    (evalPhase cfg s t current i).2.1.last_notification_time = some t.abs :=
  commitPhase_lnt_of_events _ _ _ _ _ htel h

/-- A loop iteration never touches `last_notification_time` when no
Telegram notifier is configured. -/
theorem monitorStep_lnt_no_telegram (cfg : Config) (s : LoopState)
    (plugOn : Bool) (inp : IterInput) (h : cfg.telegramConfigured = false) :
    (monitorStep cfg s plugOn inp).state.last_notification_time =
      s.last_notification_time := by
  rcases hcw : (check_water inp.reads).2 with u | current
  · simp [monitorStep, hcw]
  · simp only [monitorStep, hcw, h, Bool.false_and]
    split
    · split
      · exact evalPhase_lnt_no_telegram cfg s inp.now current inp.interrupt h
      · rfl
    · exact evalPhase_lnt_no_telegram cfg s inp.now current inp.interrupt h

/-- A non-fatal iteration with a successful sample behaves as the
evaluation phase: same committed state and same persisted events. -/
theorem monitorStep_not_fatal (cfg : Config) (s : LoopState) (plugOn : Bool)
    (inp : IterInput) (w : Bool)
    (h : (check_water inp.reads).2 = Except.ok w)
    (hnf : (monitorStep cfg s plugOn inp).disp ≠ StepDisp.fatal) :
    (monitorStep cfg s plugOn inp).state =
      (evalPhase cfg s inp.now w inp.interrupt).2.1 ∧
    (monitorStep cfg s plugOn inp).events =
      (evalPhase cfg s inp.now w inp.interrupt).2.2 := by
  rcases hact : shouldActuate inp.now w with _ | _
  · simp [monitorStep, h, hact]
  · rcases hok : inp.plugOk with _ | _
    · exact absurd (by simp [monitorStep, h, hact, hok]) hnf
    · rcases hem : (cfg.telegramConfigured && !s.emojiBound) with _ | _
      · simp [monitorStep, h, hact, hok, hem]
      · exact absurd (by simp [monitorStep, h, hact, hok, hem]) hnf

/-- Over a whole run without a configured Telegram notifier,
`last_notification_time` is never modified. -/
theorem monitorRun_lnt_no_telegram (cfg : Config)
    (h : cfg.telegramConfigured = false) :
    ∀ (inputs : List IterInput) (s : LoopState) (plugOn : Bool),
      (monitorRun cfg s plugOn inputs).state.last_notification_time =
        s.last_notification_time := by
  intro inputs
  induction inputs with
  | nil => intro s plugOn; rfl
  | cons inp rest ih =>
      intro s plugOn
      rcases hd : (monitorStep cfg s plugOn inp).disp with _ | _ | _ <;>
        simp only [monitorRun, hd]
      · rw [ih, monitorStep_lnt_no_telegram _ _ _ _ h]
      · rw [monitorStep_lnt_no_telegram _ _ _ _ h]
      · rw [monitorStep_lnt_no_telegram _ _ _ _ h]

/-- C6: for every sequence of 5 raw boolean samples read by the sensor
sampler, `check_water` returns true iff at least 3 of the 5 samples are
true (strict greater-than-half majority vote). -/
theorem C6_check_water_majority (rs : List Bool) (h : rs.length = 5) :
    (check_water (rs.map some)).2 = Except.ok true ↔ 3 ≤ rs.count true := by
  have hc : checkWaterResult rs = true ↔ 3 ≤ rs.count true := by
    unfold checkWaterResult
    rw [decide_eq_true_iff]
    omega
  simp only [check_water, takeReadings_map_some]
  simpa using hc

/-- Witness for C6 at a concrete 5-sample sequence with 3 wet samples. -/
theorem C6_witness :
    ([true, true, true, false, false] : List Bool).length = 5 ∧
    ((check_water (([true, true, true, false, false] : List Bool).map some)).2 =
        Except.ok true ↔
      3 ≤ ([true, true, true, false, false] : List Bool).count true) :=
  ⟨rfl, C6_check_water_majority [true, true, true, false, false] rfl⟩

/-- C8: on both the success path and every failure path of `check_water`,
the last write to the sensor power pin before the call returns or the
exception propagates drives the pin LOW. -/
theorem C8_power_pin_low_after_check_water (reads : List (Option Bool)) :
    ((check_water reads).1).getLast? = some false := by
  unfold check_water
  rcases htr : takeReadings reads with _ | rs <;> simp [htr]

/-- C9: in every iteration the actuation trigger fires (a `set_plug` call
is issued) iff the wall-clock hour and minute exactly equal the trigger
time 07:00 and the current sample is wet. -/
theorem C9_trigger_iff (cfg : Config) (s : LoopState) (plugOn : Bool)
    (inp : IterInput) (w : Bool)
    (h : (check_water inp.reads).2 = Except.ok w) :
    ((monitorStep cfg s plugOn inp).plugCalls ≠ [] ↔
      shouldActuate inp.now w = true) ∧
    (shouldActuate inp.now w = true ↔
      (inp.now.hour = 7 ∧ inp.now.minute = 0 ∧ w = true)) := by
  constructor
  · simp only [monitorStep, h]
    by_cases hact : shouldActuate inp.now w = true
    · simp only [hact, if_true]
      split
      · split <;> simp
      · simp
    · simp [hact]
  · unfold shouldActuate
    simp [Bool.and_eq_true, decide_eq_true_iff, and_assoc]

/-- Witness for C9 at a wet sample taken at exactly 07:00. -/
theorem C9_witness :
    (check_water wet5).2 = Except.ok true ∧
    (((monitorStep cfgNoTel initState false
          ⟨wet5, ⟨25200, 7, 0⟩, true, true, false⟩).plugCalls ≠ [] ↔
        shouldActuate ⟨25200, 7, 0⟩ true = true) ∧
      (shouldActuate ⟨25200, 7, 0⟩ true = true ↔
        ((⟨25200, 7, 0⟩ : Time).hour = 7 ∧ (⟨25200, 7, 0⟩ : Time).minute = 0 ∧
          true = true))) :=
  ⟨rfl, C9_trigger_iff cfgNoTel initState false
      ⟨wet5, ⟨25200, 7, 0⟩, true, true, false⟩ true rfl⟩

/-- C1 (counterexample): a run that turns the remote plug ON at 07:00 and
later hits a SensorFailure terminates in error with the plug still ON:
the shutdown path issues no command that turns the remote plug off. -/
theorem C1_counterexample :
    (monitorRun cfgNoTel initState false
      [⟨wet5, ⟨25200, 7, 0⟩, true, true, false⟩,
       ⟨failReads, ⟨25320, 7, 2⟩, true, true, false⟩]).result =
        RunResult.failed ∧
    (monitorRun cfgNoTel initState false
      [⟨wet5, ⟨25200, 7, 0⟩, true, true, false⟩,
       ⟨failReads, ⟨25320, 7, 2⟩, true, true, false⟩]).plugOn = true := by
  decide

/-- C1 (amended): every run of `monitor` that ends in error or interrupt
leaves the sensor power pin LOW: the last power-pin write before `monitor`
returns or re-raises is LOW (the `finally` block); no remote-plug OFF
command is modelled because the code issues none. -/
theorem C1_shutdown_sensor_pin_low (cfg : Config) (s : LoopState)
    (plugOn : Bool) (inputs : List IterInput)
    (h : (monitorRun cfg s plugOn inputs).result = RunResult.failed ∨
      (monitorRun cfg s plugOn inputs).result = RunResult.interrupted) :
    ((monitorRun cfg s plugOn inputs).pinWrites).getLast? = some false := by
  induction inputs generalizing s plugOn with
  | nil => rcases h with h | h <;> simp [monitorRun] at h
  | cons inp rest ih =>
      rcases hd : (monitorStep cfg s plugOn inp).disp with _ | _ | _ <;>
        simp only [monitorRun, hd] at h ⊢
      · have hlast := ih _ _ h
        have hne : (monitorRun cfg (monitorStep cfg s plugOn inp).state
            (monitorStep cfg s plugOn inp).plugOn rest).pinWrites ≠ [] := by
          intro hnil
          rw [hnil] at hlast
          simp at hlast
        rw [List.getLast?_append_of_ne_nil _ hne]
        exact hlast
      · rw [List.getLast?_append_cons]; rfl
      · rw [List.getLast?_append_cons]; rfl

/-- Witness for C1 at a run whose single iteration hits a sensor
failure. -/
theorem C1_witness :
    ((monitorRun cfgNoTel initState false
      [⟨failReads, ⟨0, 8, 0⟩, true, true, false⟩]).pinWrites).getLast? =
      some false :=
  C1_shutdown_sensor_pin_low cfgNoTel initState false
    [⟨failReads, ⟨0, 8, 0⟩, true, true, false⟩] (Or.inl (by decide))

/-- C2 (counterexample): with a notifier configured, on the second
iteration (unchanged state, cooldown not elapsed) the persist/notify
branch is skipped and `last_reading_time` is NOT updated to the current
timestamp 120 — it stays at 0, contradicting the unconditional-update
claim. -/
theorem C2_counterexample :
    (monitorRun cfgTel initState false
      [⟨dry5, ⟨0, 8, 0⟩, true, true, false⟩,
       ⟨dry5, ⟨120, 8, 2⟩, true, true, false⟩]).state.last_reading_time =
        some 0 ∧
    (monitorRun cfgTel initState false
      [⟨dry5, ⟨0, 8, 0⟩, true, true, false⟩,
       ⟨dry5, ⟨120, 8, 2⟩, true, true, false⟩]).state.last_reading_time ≠
        some 120 := by
  decide

/-- C2 (amended): on iterations after the first, `last_state` and
`last_reading_time` are committed exactly when the persist/notify branch
runs (state changed or notification due); when the branch is skipped they
are left unchanged. -/
theorem C2_state_commit_iff_branch (cfg : Config) (s : LoopState) (t : Time)
    (current : Bool) (i : Bool) (r : Int) (h : s.last_reading_time = some r) :
    ((current = s.last_state ∧
        should_notify s.last_notification_time t.abs cfg.cooldown = false) →
      (evalPhase cfg s t current i).2.1.last_reading_time = some r ∧
      (evalPhase cfg s t current i).2.1.last_state = s.last_state) ∧
    ((current ≠ s.last_state ∨
        should_notify s.last_notification_time t.abs cfg.cooldown = true) →
      (evalPhase cfg s t current i).2.1.last_reading_time = some t.abs ∧
      (evalPhase cfg s t current i).2.1.last_state = current) := by
  have hfr : firstReading s t current = (s, decide (current ≠ s.last_state)) := by
    simp [firstReading, h]
  constructor
  · rintro ⟨hcur, hsn⟩
    have hst : (evalPhase cfg s t current i).2.1 = s := by
      show (commitPhase cfg (firstReading s t current).1 t current
        (firstReading s t current).2).1 = s
      rw [hfr]
      unfold commitPhase
      simp [hcur, hsn]
    rw [hst]
    exact ⟨h, rfl⟩
  · intro hor
    have hcond : (decide (current ≠ s.last_state) ||
        should_notify s.last_notification_time t.abs cfg.cooldown) = true := by
      rcases hor with hne | hsn
      · simp [hne]
      · simp [hsn]
    constructor
    · show (commitPhase cfg (firstReading s t current).1 t current
        (firstReading s t current).2).1.last_reading_time = some t.abs
      rw [hfr]
      show (commitPhase cfg s t current
        (decide (current ≠ s.last_state))).1.last_reading_time = some t.abs
      unfold commitPhase
      rw [if_pos hcond]
    · show (commitPhase cfg (firstReading s t current).1 t current
        (firstReading s t current).2).1.last_state = current
      rw [hfr]
      show (commitPhase cfg s t current
        (decide (current ≠ s.last_state))).1.last_state = current
      unfold commitPhase
      rw [if_pos hcond]

/-- Witness for C2 at a skipped-branch iteration: unchanged dry state and
cooldown not yet elapsed leave the committed state untouched. -/
theorem C2_witness :
    (evalPhase cfgTel ⟨false, some 0, some 0, true⟩ ⟨120, 8, 2⟩ false
        false).2.1.last_reading_time = some 0 ∧
    (evalPhase cfgTel ⟨false, some 0, some 0, true⟩ ⟨120, 8, 2⟩ false
        false).2.1.last_state = false :=
  (C2_state_commit_iff_branch cfgTel ⟨false, some 0, some 0, true⟩
      ⟨120, 8, 2⟩ false false 0 rfl).1 ⟨rfl, by decide⟩

/-- C3 (counterexample): when the 07:00 trigger fires and the actuator
call fails, the whole run terminates in error with no event persisted and
no state update — the iteration does not proceed and the loop does not
continue. -/
theorem C3_counterexample :
    (monitorRun cfgNoTel initState false
      [⟨wet5, ⟨25200, 7, 0⟩, false, true, false⟩]).result =
        RunResult.failed ∧
    (monitorRun cfgNoTel initState false
      [⟨wet5, ⟨25200, 7, 0⟩, false, true, false⟩]).events = [] ∧
    (monitorRun cfgNoTel initState false
      [⟨wet5, ⟨25200, 7, 0⟩, false, true, false⟩]).state = initState := by
  decide

/-- C3 (amended): a failure of the actuator call in the trigger branch is
reported by the outer exception handler but aborts both the iteration and
the loop: evaluation, persistence and state update are skipped and
`monitor` terminates in error. -/
theorem C3_actuator_failure_aborts (cfg : Config) (s : LoopState)
    (plugOn : Bool) (inp : IterInput) (rest : List IterInput) (w : Bool)
    (h : (check_water inp.reads).2 = Except.ok w)
    (hact : shouldActuate inp.now w = true)
    (hfail : inp.plugOk = false) :
    (monitorRun cfg s plugOn (inp :: rest)).result = RunResult.failed ∧
    (monitorRun cfg s plugOn (inp :: rest)).events = [] ∧
    (monitorRun cfg s plugOn (inp :: rest)).state = s := by
  have hstep : monitorStep cfg s plugOn inp =
      { disp := StepDisp.fatal, state := s, plugOn := plugOn,
        plugCalls := [inp.now], events := [],
        pinWrites := (check_water inp.reads).1 } := by
    simp [monitorStep, h, hact, hfail]
  refine ⟨?_, ?_, ?_⟩ <;> simp only [monitorRun, hstep]

/-- Witness for C3 at a concrete failing actuator call at 07:00. -/
theorem C3_witness :
    (monitorRun cfgNoTel initState false
      [⟨wet5, ⟨25200, 7, 0⟩, false, true, false⟩]).result =
      RunResult.failed :=
  (C3_actuator_failure_aborts cfgNoTel initState false
    ⟨wet5, ⟨25200, 7, 0⟩, false, true, false⟩ [] true rfl (by decide)
    rfl).1

/-- C4 (counterexample): with a notifier configured, a failed notification
(`send_message` returns false, `notifySent = false`) still updates
`last_notification_time` to the current time — it is not left unchanged. -/
theorem C4_counterexample :
    (monitorRun cfgTel initState false
      [⟨wet5, ⟨0, 8, 0⟩, true, false,
        false⟩]).state.last_notification_time = some 0 ∧
    (monitorRun cfgTel initState false
      [⟨wet5, ⟨0, 8, 0⟩, true, false,
        false⟩]).state.last_notification_time ≠ none := by
  decide

/-- C4 (amended): whenever a notification is attempted (notifier
configured and the persist/notify branch runs), `last_notification_time`
is set to the current time regardless of `send_message`'s result: the
iteration's outcome is entirely independent of the `notifySent` input. -/
theorem C4_lnt_updated_on_attempt (cfg : Config) (s : LoopState)
    (plugOn : Bool) (inp : IterInput) (w : Bool)
    (htel : cfg.telegramConfigured = true)
    (h : (check_water inp.reads).2 = Except.ok w)
    (hnf : (monitorStep cfg s plugOn inp).disp ≠ StepDisp.fatal)
    (hev : (monitorStep cfg s plugOn inp).events ≠ []) :
    (monitorStep cfg s plugOn inp).state.last_notification_time =
      some inp.now.abs ∧
    (∀ b : Bool, monitorStep cfg s plugOn
        { inp with notifySent := b } = monitorStep cfg s plugOn inp) := by
  constructor
  · have hne := monitorStep_not_fatal cfg s plugOn inp w h hnf
    rw [hne.1]
    apply evalPhase_lnt_of_events _ _ _ _ _ htel
    rw [← hne.2]
    exact hev
  · intro b
    cases inp
    rfl

/-- Witness for C4 at a first reading whose notification fails. -/
theorem C4_witness :
    (monitorStep cfgTel initState false
      ⟨wet5, ⟨0, 8, 0⟩, true, false, false⟩).state.last_notification_time =
      some 0 :=
  (C4_lnt_updated_on_attempt cfgTel initState false
    ⟨wet5, ⟨0, 8, 0⟩, true, false, false⟩ true rfl rfl (by decide)
    (by decide)).1

/-- C5 (counterexample): with the sensor wet throughout the 07:00 trigger
minute and two loop iterations falling inside that minute, `set_plug(ON)`
is called twice within the matching minute — not exactly once. -/
theorem C5_counterexample :
    (monitorRun cfgNoTel initState false
      [⟨wet5, ⟨25200, 7, 0⟩, true, true, false⟩,
       ⟨wet5, ⟨25230, 7, 0⟩, true, true, false⟩]).plugCalls =
      [⟨25200, 7, 0⟩, ⟨25230, 7, 0⟩] ∧
    (monitorRun cfgNoTel initState false
      [⟨wet5, ⟨25200, 7, 0⟩, true, true, false⟩,
       ⟨wet5, ⟨25230, 7, 0⟩, true, true, false⟩]).plugCalls.length = 2 := by
  decide

/-- C5 (amended): the actuator is called at most once per loop iteration
that matches the trigger window, and never on an iteration whose
wall-clock minute differs from the trigger minute (so none at 07:01);
within the matching minute the call count equals the number of iterations
sampled in it. -/
theorem C5_one_call_per_matching_iteration (cfg : Config) (s : LoopState)
    (plugOn : Bool) (inp : IterInput) (w : Bool)
    (h : (check_water inp.reads).2 = Except.ok w) :
    (monitorStep cfg s plugOn inp).plugCalls.length ≤ 1 ∧
    (inp.now.minute ≠ 0 → (monitorStep cfg s plugOn inp).plugCalls = []) := by
  constructor
  · rcases hact : shouldActuate inp.now w with _ | _
    · simp [monitorStep, h, hact]
    · rcases hok : inp.plugOk with _ | _
      · simp [monitorStep, h, hact, hok]
      · rcases hem : (cfg.telegramConfigured && !s.emojiBound) with _ | _ <;>
          simp [monitorStep, h, hact, hok, hem]
  · intro hmin
    have hact : shouldActuate inp.now w = false := by
      unfold shouldActuate
      simp [hmin]
    simp [monitorStep, h, hact]

/-- Witness for C5 at a wet sample taken at 07:01: no actuator call. -/
theorem C5_witness :
    (monitorStep cfgNoTel initState false
      ⟨wet5, ⟨25260, 7, 1⟩, true, true, false⟩).plugCalls = [] :=
  (C5_one_call_per_matching_iteration cfgNoTel initState false
    ⟨wet5, ⟨25260, 7, 1⟩, true, true, false⟩ true rfl).2 (by decide)

/-- C7: on iterations after the first, the persist/notify decision is
`changed OR cooldown elapsed (strict)`: an event is recorded iff the
sample differs from `last_state`, or no notification has ever been sent,
or `now - last_notification_time > cooldown`. -/
theorem C7_notify_decision (cfg : Config) (s : LoopState) (t : Time)
    (current : Bool) (i : Bool) (r : Int)
    (h : s.last_reading_time = some r) :
    (evalPhase cfg s t current i).2.2 ≠ [] ↔
      (current ≠ s.last_state ∨ s.last_notification_time = none ∨
        ∃ t0 : Int, s.last_notification_time = some t0 ∧
          t.abs - t0 > cfg.cooldown) := by
  have hfr : firstReading s t current = (s, decide (current ≠ s.last_state)) := by
    simp [firstReading, h]
  show (commitPhase cfg (firstReading s t current).1 t current
    (firstReading s t current).2).2 ≠ [] ↔ _
  rw [hfr]
  show (commitPhase cfg s t current (decide (current ≠ s.last_state))).2 ≠
    [] ↔ _
  rw [commitPhase_events_ne_nil_iff]
  rcases hl : s.last_notification_time with _ | t0 <;>
    simp [should_notify, hl, decide_eq_true_iff]

/-- Witness for C7: cooldown elapsed (strictly) with unchanged state
forces an event. -/
theorem C7_witness :
    (evalPhase cfgTel ⟨false, some 0, some 0, true⟩ ⟨21721, 14, 2⟩ false
      false).2.2 ≠ [] :=
  (C7_notify_decision cfgTel ⟨false, some 0, some 0, true⟩ ⟨21721, 14, 2⟩
    false false 0 rfl).mpr (Or.inr (Or.inr ⟨0, rfl, by decide⟩))

/-- C10: with no Telegram notifier configured, `should_notify` is true
whenever `last_notification_time` is unset, `last_notification_time`
stays unset over every run, and every non-fatal iteration persists
exactly one `WaterEvent`. -/
theorem C10_no_telegram_always_persists (cfg : Config)
    (hcfg : cfg.telegramConfigured = false) :
    (∀ now cooldown : Int, should_notify none now cooldown = true) ∧
    (∀ (s : LoopState) (plugOn : Bool) (inputs : List IterInput),
        s.last_notification_time = none →
        (monitorRun cfg s plugOn inputs).state.last_notification_time =
          none) ∧
    (∀ (s : LoopState) (plugOn : Bool) (inp : IterInput),
        s.last_notification_time = none →
        (monitorStep cfg s plugOn inp).disp ≠ StepDisp.fatal →
        (monitorStep cfg s plugOn inp).events = [inp.now]) := by
  refine ⟨fun now cooldown => rfl, ?_, ?_⟩
  · intro s plugOn inputs hs
    rw [monitorRun_lnt_no_telegram cfg hcfg inputs s plugOn]
    exact hs
  · intro s plugOn inp hs hnf
    rcases hcw : (check_water inp.reads).2 with u | current
    · exact absurd (by simp [monitorStep, hcw]) hnf
    · rw [(monitorStep_not_fatal cfg s plugOn inp current hcw hnf).2]
      exact evalPhase_events_lnt_none _ _ _ _ _ hs

/-- Witness for C10 on a concrete one-iteration run without notifier. -/
theorem C10_witness :
    (monitorRun cfgNoTel initState false
      [⟨dry5, ⟨0, 8, 0⟩, true, true,
        false⟩]).state.last_notification_time = none :=
  (C10_no_telegram_always_persists cfgNoTel rfl).2.1 initState false
    [⟨dry5, ⟨0, 8, 0⟩, true, true, false⟩] rfl

end WaterWatcher
